import Mathlib

/-!
Verification of `@stdlib/blas-base-wasm-sdsdot`: the BLAS level-1 `sdsdot`
routine (dot product of two single-precision vectors with extended
double-precision accumulation, plus a scalar bias), exposed through two
calling conventions (`main`, stride-implicit, and `ndarray`,
offset-explicit) and two layers (`Routine`, operating on caller arrays, and
`Module`, operating on pointers into a WebAssembly linear memory).

The compiled WebAssembly kernel (`c_sdsdot` / `c_sdsdot_ndarray`) ships as a
binary: its numeric loop is modelled here from the specification (§4.1).
The JavaScript wrappers (`Routine.prototype.main`, `Routine.prototype.ndarray`,
the `Module` constructor) are embedded from their sources.

Values are modelled as exact rationals: every element read is a float32
value promoted to float64 and every accumulation step is a float64 operation;
on the integer-valued data of the repository's tests, and for the structural
properties proved here (short-circuiting, delegation, bias placement,
determinism, frame preservation), this exact model coincides with the IEEE
evaluation promised by the spec's strict left-to-right order.
-/

namespace SdsDot

/-- Modelled from the spec: resolving a (buffer, index) pair to a 32-bit
float, for the compiled kernel missing from the sources. An index inside the
buffer yields that entry (promoted to the 64-bit accumulator type, exact in
this rational model); an index outside the buffer is undefined behavior per
§4.1's precondition, modelled as the 0.0 found in zero-initialized
WebAssembly linear memory. -/
def readElem : List ℚ → ℤ → ℚ
  | [], _ => 0
  | a :: rest, i => if i = 0 then a else readElem rest (i - 1)

/-- Modelled from the spec: the accumulation loop of the compiled kernel
`c_sdsdot_ndarray` (shipped only as a WebAssembly binary, not under the
sources). Iterating `k` from 0 to N-1, it reads `x[ix]` and `y[iy]` as
32-bit floats, promotes both, multiplies, adds the product into the running
64-bit accumulator, and advances both indices by their strides — a strictly
sequential left-to-right reduction. -/
def dotLoop (x : List ℚ) (sx : ℤ) (y : List ℚ) (sy : ℤ) :
    ℕ → ℤ → ℤ → ℚ → ℚ
  | 0, _, _, acc => acc
  | n + 1, ix, iy, acc =>
      dotLoop x sx y sy n (ix + sx) (iy + sy) (acc + readElem x ix * readElem y iy)

/-- Modelled from the spec: the compiled kernel `c_sdsdot_ndarray`
(offset-explicit entry point). If `N <= 0` it returns `scalar` unmodified;
otherwise the accumulator is initialized to 0.0, the `N` products are
accumulated left to right starting at the explicit offsets, and `scalar` is
added strictly after the reduction loop completes. -/
def c_sdsdot_ndarray (N : ℤ) (scalar : ℚ) (x : List ℚ) (strideX offsetX : ℤ)
    (y : List ℚ) (strideY offsetY : ℤ) : ℚ :=
  if N ≤ 0 then scalar
  else dotLoop x strideX y strideY N.toNat offsetX offsetY 0 + scalar

/-- Modelled from the spec: the offset-derivation rule of
`@stdlib/strided-base-stride2offset` (an external dependency of
`Routine.prototype.main`, not under the sources): a stride `S ≥ 0` anchors at
index 0, a stride `S < 0` anchors at index `(N-1)*|S|`. -/
def stride2offset (N stride : ℤ) : ℤ :=
  if 0 ≤ stride then 0 else (N - 1) * (-stride)

/-- Embeds `Routine.prototype.ndarray`: convert the caller's arrays to
pointers in module memory and invoke the kernel on the same logical element
sequence. The managed-arena bookkeeping (`arrays2ptrs` / `strided2object`)
is out of scope per the spec (§1, §6): its net effect, modelled from the
spec, is that the kernel resolves each (buffer, stride, offset) triple to the
caller's 32-bit float elements. -/
def Routine.ndarray (N : ℤ) (scalar : ℚ) (x : List ℚ) (strideX offsetX : ℤ)
    (y : List ℚ) (strideY offsetY : ℤ) : ℚ :=
  c_sdsdot_ndarray N scalar x strideX offsetX y strideY offsetY

/-- Embeds `Routine.prototype.main`: delegates to the `ndarray` entry point
with offsets derived from the strides by `stride2offset`. -/
def Routine.main (N : ℤ) (scalar : ℚ) (x : List ℚ) (strideX : ℤ)
    (y : List ℚ) (strideY : ℤ) : ℚ :=
  Routine.ndarray N scalar x strideX (stride2offset N strideX)
    y strideY (stride2offset N strideY)

/-- The spec's wording of the implicit-offset rule (§4.1, secondary entry
point), written independently of `stride2offset` for the refinement
comparison: 0 if the stride is non-negative, else `(N-1)*|S|`. -/
def specImpliedOffset (N S : ℤ) : ℤ :=
  if 0 ≤ S then 0 else (N - 1) * (S.natAbs : ℤ)

end SdsDot

namespace SdsDot

/-- The caller-owned input buffers of one invocation, threaded through the
call explicitly so that every write the call performs on them is recorded in
the returned state. -/
structure CallBuffers where
  x : List ℚ
  y : List ℚ
  deriving DecidableEq

/-- Embeds `Routine.prototype.ndarray` with the caller's buffers as explicit
state: the source reads `x` and `y` (copying their data into module memory)
and performs no write and no copy-back into them (the kernel, per the spec,
only reads; `sdsdot` has no output array), so the buffer state returned to
the caller is the buffer state received. -/
def Routine.ndarrayCall (bufs : CallBuffers) (N : ℤ) (scalar : ℚ)
    (strideX offsetX strideY offsetY : ℤ) : CallBuffers × ℚ :=
  (bufs, Routine.ndarray N scalar bufs.x strideX offsetX bufs.y strideY offsetY)

/-- Embeds `Routine.prototype.main` with the caller's buffers as explicit
state, analogously to `Routine.ndarrayCall`. -/
def Routine.mainCall (bufs : CallBuffers) (N : ℤ) (scalar : ℚ)
    (strideX strideY : ℤ) : CallBuffers × ℚ :=
  (bufs, Routine.main N scalar bufs.x strideX bufs.y strideY)

/-- The argument handed to the `Module` constructor: a value that either is a
WebAssembly memory instance (carrying its element contents) or is not. -/
structure MemArg where
  isWasmMemory : Bool
  contents : List ℚ

/-- Embeds the `isWebAssemblyMemory` check guarding the `Module`
constructor. -/
def isWebAssemblyMemory (a : MemArg) : Bool :=
  a.isWasmMemory

/-- The state of a constructed `Module` instance: its linear memory. -/
structure ModuleState where
  memory : List ℚ

/-- Embeds the `Module` constructor body (after the `new` re-dispatch): if
the argument is not a WebAssembly memory instance, a `TypeError` is thrown
before any computation and no instance state is created; otherwise the
parent `WasmModule` constructor is called on the memory and the instance is
returned. -/
def Module.construct (a : MemArg) : Except String ModuleState :=
  if isWebAssemblyMemory a then Except.ok { memory := a.contents }
  else Except.error "TypeError: invalid argument. Must provide a WebAssembly memory instance."

/-- Embeds the first guard of the `Module` constructor: a plain call without
`new` detects `this` is not an instance and evaluates `new Module( memory )`,
i.e. the constructor body on the same argument. -/
def Module.plainCall (a : MemArg) : Except String ModuleState :=
  Module.construct a

/-- Embeds `new Memory( { initial: n } )`: a genuine WebAssembly memory
instance whose `n` pages are zero-initialized. -/
def Memory.new (pages : ℕ) : MemArg :=
  { isWasmMemory := true, contents := List.replicate pages 0 }

/-- The state of a constructed `Routine` instance: the `Module` state it was
built on. -/
structure RoutineState where
  memory : List ℚ

/-- Embeds the `Routine` constructor body (after the `new` re-dispatch):
call the `Module` constructor on a fresh zero-page memory instance. -/
def Routine.construct : Except String RoutineState :=
  match Module.construct (Memory.new 0) with
  | Except.ok m => Except.ok { memory := m.memory }
  | Except.error e => Except.error e

/-- Embeds the first guard of the `Routine` constructor: a plain call
without `new` evaluates `new Routine()`, i.e. the constructor body. -/
def Routine.plainCall : Except String RoutineState :=
  Routine.construct

end SdsDot

namespace SdsDot

/-- The loop of the kernel computes, on top of its incoming accumulator, the
sum of the `n` strided products taken in order. -/
lemma dotLoop_eq_sum (x : List ℚ) (sx : ℤ) (y : List ℚ) (sy : ℤ) (n : ℕ) :
    ∀ (ix iy : ℤ) (acc : ℚ),
      dotLoop x sx y sy n ix iy acc
        = acc + ∑ k ∈ Finset.range n,
            readElem x (ix + (k : ℤ) * sx) * readElem y (iy + (k : ℤ) * sy) := by
  induction n with
  | zero =>
      intro ix iy acc
      simp [dotLoop]
  | succ n ih =>
      intro ix iy acc
      have step :
          dotLoop x sx y sy (n + 1) ix iy acc
            = dotLoop x sx y sy n (ix + sx) (iy + sy)
                (acc + readElem x ix * readElem y iy) := rfl
      rw [step, ih]
      rw [Finset.sum_range_succ']
      have hc : ∀ k ∈ Finset.range n,
          readElem x (ix + sx + (k : ℤ) * sx) * readElem y (iy + sy + (k : ℤ) * sy)
            = readElem x (ix + ((k : ℕ) + 1 : ℕ) * sx)
                * readElem y (iy + ((k : ℕ) + 1 : ℕ) * sy) := by
        intro k _
        have hx : ix + sx + (k : ℤ) * sx = ix + ((k : ℕ) + 1 : ℕ) * sx := by
          push_cast
          ring
        have hy : iy + sy + (k : ℤ) * sy = iy + ((k : ℕ) + 1 : ℕ) * sy := by
          push_cast
          ring
        rw [hx, hy]
      rw [Finset.sum_congr rfl hc]
      simp only [Nat.cast_zero, zero_mul, add_zero]
      ring

end SdsDot

namespace SdsDot

/-- Reading a buffer at a non-negative in-range index yields the buffer
entry at that index (stated via `List.getD`, which the in-bounds hypotheses
of the callers pin to the actual entry). -/
lemma readElem_eq_getD : ∀ (buf : List ℚ) (i : ℤ), 0 ≤ i →
    readElem buf i = buf.getD i.toNat 0
  | [], _, _ => by simp [readElem]
  | a :: rest, i, h0 => by
      by_cases hi : i = 0
      · subst hi
        simp [readElem]
      · have h1 : (0 : ℤ) ≤ i - 1 := by omega
        have ht : i.toNat = (i - 1).toNat + 1 := by omega
        rw [readElem, if_neg hi, readElem_eq_getD rest (i - 1) h1, ht, List.getD_cons_succ]

/-- C1: for `N > 0` and in-bounds strided index sequences, the `ndarray`
entry point returns `scalar` plus the left-to-right accumulated sum of the
products `x[offsetX + k*strideX] * y[offsetY + k*strideY]` for `k` from 0
to `N-1`, each element promoted and multiplied in the 64-bit accumulator
(exact in this rational model). -/
theorem ndarray_computes_weighted_sum
    (N : ℤ) (scalar : ℚ) (x : List ℚ) (sx ox : ℤ) (y : List ℚ) (sy oy : ℤ)
    (hN : 0 < N)
    (hx : ∀ k : ℕ, k < N.toNat →
      0 ≤ ox + (k : ℤ) * sx ∧ ox + (k : ℤ) * sx < (x.length : ℤ))
    (hy : ∀ k : ℕ, k < N.toNat →
      0 ≤ oy + (k : ℤ) * sy ∧ oy + (k : ℤ) * sy < (y.length : ℤ)) :
    c_sdsdot_ndarray N scalar x sx ox y sy oy
      = scalar + ∑ k ∈ Finset.range N.toNat,
          x.getD (ox + (k : ℤ) * sx).toNat 0 * y.getD (oy + (k : ℤ) * sy).toNat 0 := by
  rw [c_sdsdot_ndarray, if_neg (by omega), dotLoop_eq_sum]
  have hc : ∀ k ∈ Finset.range N.toNat,
      readElem x (ox + (k : ℤ) * sx) * readElem y (oy + (k : ℤ) * sy)
        = x.getD (ox + (k : ℤ) * sx).toNat 0 * y.getD (oy + (k : ℤ) * sy).toNat 0 := by
    intro k hk
    rw [Finset.mem_range] at hk
    rw [readElem_eq_getD x _ (hx k hk).1, readElem_eq_getD y _ (hy k hk).1]
  rw [Finset.sum_congr rfl hc, zero_add, add_comm]

/-- Witness for C1 at `N = 2`, `scalar = 5`, `x = [1,2]`, `y = [3,4]`, unit
strides and zero offsets. -/
theorem ndarray_computes_weighted_sum_witness :
    c_sdsdot_ndarray 2 5 [1, 2] 1 0 [3, 4] 1 0
      = 5 + ∑ k ∈ Finset.range (2 : ℤ).toNat,
          ([1, 2] : List ℚ).getD ((0 : ℤ) + (k : ℤ) * 1).toNat 0
            * ([3, 4] : List ℚ).getD ((0 : ℤ) + (k : ℤ) * 1).toNat 0 :=
  ndarray_computes_weighted_sum 2 5 [1, 2] 1 0 [3, 4] 1 0 (by norm_num)
    (by
      intro k hk
      simp only [Int.toNat_ofNat, List.length_cons, List.length_nil] at hk ⊢
      omega)
    (by
      intro k hk
      simp only [Int.toNat_ofNat, List.length_cons, List.length_nil] at hk ⊢
      omega)

/-- C2: for `N <= 0`, both the stride-implicit (`main`) and the
offset-explicit (`ndarray`) entry points return the scalar unmodified, for
any buffers, strides and offsets — the empty dot product contributes
exactly 0. -/
theorem entry_points_return_scalar_for_nonpositive_N
    (N : ℤ) (scalar : ℚ) (x : List ℚ) (sx ox : ℤ) (y : List ℚ) (sy oy : ℤ)
    (hN : N ≤ 0) :
    Routine.main N scalar x sx y sy = scalar ∧
    Routine.ndarray N scalar x sx ox y sy oy = scalar := by
  constructor <;> simp [Routine.main, Routine.ndarray, c_sdsdot_ndarray, if_pos hN]

/-- Witness for C2 at `N = -4`, `scalar = 7`. -/
theorem entry_points_return_scalar_for_nonpositive_N_witness :
    Routine.main (-4) 7 [1, 2, 3] 1 [4, 5, 6] 1 = 7 ∧
    Routine.ndarray (-4) 7 [1, 2, 3] 1 0 [4, 5, 6] 1 0 = 7 :=
  entry_points_return_scalar_for_nonpositive_N (-4) 7 [1, 2, 3] 1 0 [4, 5, 6] 1 0
    (by norm_num)

/-- C3: the stride-implicit `main` entry point returns exactly the value of
the offset-explicit `ndarray` entry point at the spec's derived offsets: 0
for a non-negative stride, `(N-1)*|S|` for a negative stride. -/
theorem main_eq_ndarray_with_implied_offsets
    (N : ℤ) (scalar : ℚ) (x : List ℚ) (sx : ℤ) (y : List ℚ) (sy : ℤ) :
    Routine.main N scalar x sx y sy
      = Routine.ndarray N scalar x sx (specImpliedOffset N sx)
          y sy (specImpliedOffset N sy) := by
  have h : ∀ S : ℤ, stride2offset N S = specImpliedOffset N S := by
    intro S
    rw [stride2offset, specImpliedOffset]
    by_cases hS : 0 ≤ S
    · rw [if_pos hS, if_pos hS]
    · have ha : ((S.natAbs : ℤ)) = -S := by omega
      rw [if_neg hS, if_neg hS, ha]
  rw [Routine.main, h, h]

/-- C4: the scalar bias is added exactly once, strictly after the reduction
loop: the result with bias `s` equals the result with bias 0 plus `s`, for
both entry points. -/
theorem scalar_bias_added_once_after_loop
    (N : ℤ) (s : ℚ) (x : List ℚ) (sx ox : ℤ) (y : List ℚ) (sy oy : ℤ)
    (hN : 0 < N) :
    c_sdsdot_ndarray N s x sx ox y sy oy
        = c_sdsdot_ndarray N 0 x sx ox y sy oy + s ∧
    Routine.main N s x sx y sy = Routine.main N 0 x sx y sy + s := by
  have key : ∀ o1 o2 : ℤ,
      c_sdsdot_ndarray N s x sx o1 y sy o2
        = c_sdsdot_ndarray N 0 x sx o1 y sy o2 + s := by
    intro o1 o2
    rw [c_sdsdot_ndarray, c_sdsdot_ndarray, if_neg (by omega), if_neg (by omega)]
    ring
  exact ⟨key ox oy,
    by rw [Routine.main, Routine.main, Routine.ndarray, Routine.ndarray]; exact key _ _⟩

/-- Witness for C4 at `N = 3`, `s = 10`, the buffers of the repository's
scalar-constant test. -/
theorem scalar_bias_added_once_after_loop_witness :
    (c_sdsdot_ndarray 3 10 [3, -4, 1] 1 0 [1, -2, 3] 1 0
        = c_sdsdot_ndarray 3 0 [3, -4, 1] 1 0 [1, -2, 3] 1 0 + 10) ∧
    Routine.main 3 10 [3, -4, 1] 1 [1, -2, 3] 1
        = Routine.main 3 0 [3, -4, 1] 1 [1, -2, 3] 1 + 10 :=
  scalar_bias_added_once_after_loop 3 10 [3, -4, 1] 1 0 [1, -2, 3] 1 0 (by norm_num)

end SdsDot

namespace SdsDot

/-- Counterexample to C5 as stated: with a five-element `y`, the traversal
`offsetY + k*strideY` touches index `3 + 2*1 = 5`, which is out of bounds
(the five-element `y` of the claim ends at index 4), so the entry point does
not return 94 — the third product reads no `y` entry (out-of-bounds reads
resolve to the 0.0 of zero-initialized linear memory in this model) and the
result is 39. -/
theorem scenario5_as_stated_fails :
    ((([6, 7, 8, 9, 10] : List ℚ).length : ℤ) ≤ 3 + 2 * 1) ∧
    c_sdsdot_ndarray 3 0 [1, 2, 3, 4, 5] 2 0 [6, 7, 8, 9, 10] 1 3 ≠ 94 := by
  constructor
  · norm_num
  · norm_num [c_sdsdot_ndarray, dotLoop, readElem]

/-- C5 (amended): with the six-element `y = [6,7,8,9,10,11]` of the cited
test, the `ndarray` entry point at `N = 3`, `strideX = 2`, `offsetX = 0`,
`strideY = 1`, `offsetY = 3`, `scalar = 0` returns 94. -/
theorem scenario5_amended :
    c_sdsdot_ndarray 3 0 [1, 2, 3, 4, 5] 2 0 [6, 7, 8, 9, 10, 11] 1 3 = 94 := by
  norm_num [c_sdsdot_ndarray, dotLoop, readElem]

/-- C6: the stride-implicit entry point on `x = [1,2,3,4,5,6]`,
`y = [1,1,1,1,1,1]`, `N = 3`, `strideX = 2`, `strideY = -1`, `scalar = 0`
returns 9, with `y` anchored at its derived offset `(3-1)*1 = 2` and walked
backward. -/
theorem main_forward_backward_scenario :
    Routine.main 3 0 [1, 2, 3, 4, 5, 6] 2 [1, 1, 1, 1, 1, 1] (-1) = 9 ∧
    stride2offset 3 (-1) = 2 := by
  constructor
  · norm_num [Routine.main, Routine.ndarray, stride2offset, c_sdsdot_ndarray,
      dotLoop, readElem]
  · norm_num [stride2offset]

/-- C7: both entry points leave the caller's input buffers exactly as they
were: the buffer state returned by the call equals the buffer state passed
in, for every argument list. -/
theorem call_leaves_buffers_unchanged
    (bufs : CallBuffers) (N : ℤ) (scalar : ℚ) (sx ox sy oy : ℤ) :
    (Routine.ndarrayCall bufs N scalar sx ox sy oy).1 = bufs ∧
    (Routine.mainCall bufs N scalar sx sy).1 = bufs :=
  ⟨rfl, rfl⟩

/-- C8: both entry points are deterministic — two invocations whose `N`,
scalar, buffer contents, strides and offsets are componentwise identical
return identical results. -/
theorem entry_points_deterministic
    (N N' : ℤ) (s s' : ℚ) (x x' : List ℚ) (sx sx' ox ox' : ℤ)
    (y y' : List ℚ) (sy sy' oy oy' : ℤ)
    (h1 : N = N') (h2 : s = s') (h3 : x = x') (h4 : sx = sx') (h5 : ox = ox')
    (h6 : y = y') (h7 : sy = sy') (h8 : oy = oy') :
    c_sdsdot_ndarray N s x sx ox y sy oy
        = c_sdsdot_ndarray N' s' x' sx' ox' y' sy' oy' ∧
    Routine.main N s x sx y sy = Routine.main N' s' x' sx' y' sy' := by
  subst h1 h2 h3 h4 h5 h6 h7 h8
  exact ⟨rfl, rfl⟩

/-- Witness for C8 at the repository's first test vector, both invocations
spelled with the same concrete arguments. -/
theorem entry_points_deterministic_witness :
    c_sdsdot_ndarray 3 0 [3, -4, 1] 1 0 [1, -2, 3] 1 0
        = c_sdsdot_ndarray 3 0 [3, -4, 1] 1 0 [1, -2, 3] 1 0 ∧
    Routine.main 3 0 [3, -4, 1] 1 [1, -2, 3] 1
        = Routine.main 3 0 [3, -4, 1] 1 [1, -2, 3] 1 :=
  entry_points_deterministic 3 3 0 0 [3, -4, 1] [3, -4, 1] 1 1 0 0
    [1, -2, 3] [1, -2, 3] 1 1 0 0 rfl rfl rfl rfl rfl rfl rfl rfl

/-- C9: the `Module` constructor raises a `TypeError` exactly when its
argument is not a WebAssembly memory instance; the error is raised at the
binding boundary and no module state accompanies it. -/
theorem module_constructor_typeerror_iff (a : MemArg) :
    (∃ e, Module.construct a = Except.error e) ↔ isWebAssemblyMemory a = false := by
  rw [Module.construct]
  by_cases h : isWebAssemblyMemory a
  · simp [h]
  · simp [h]

/-- C10: calling `Routine` or `Module` without `new` re-dispatches to the
constructor and yields the very same constructed instance (hence identical
observable behavior of its `main` and `ndarray` methods). -/
theorem constructors_without_new_equivalent :
    Routine.plainCall = Routine.construct ∧
    ∀ a : MemArg, Module.plainCall a = Module.construct a :=
  ⟨rfl, fun _ => rfl⟩

end SdsDot
